import Mathlib

/-!
Verification of the crypto-lens token discovery / filtering / eviction /
sentiment-aggregation pipeline.

The definitions below are a shallow embedding of the Python sources:
  * `src/wom/new_pairs_tracker.py` (symbol normalisation, filtering,
    dedup, SQLite `INSERT OR REPLACE` storage),
  * `src/wom/main.py` and `src/crypto_lens/main.py` (schema, eviction),
  * `src/crypto_lens/twitter_analysis.py` (sentiment scoring and
    aggregation),
  * `src/crypto_lens/twitter_sentiment.py` (alternate search-term rule).
Machine floats are modelled by ℚ; Python `round(x, 2)` is modelled by
round-half-to-even on ℚ; SQL `NULL` by `Option`.
-/

namespace CryptoLens

/-! ### Python `round` (banker's rounding), modelled on ℚ -/

/-- Round a rational to the nearest integer, ties to even
(the behaviour of Python's builtin `round`). -/
def roundHalfEven (x : ℚ) : ℤ :=
  let f := ⌊x⌋
  if x - f < 1/2 then f
  else if 1/2 < x - f then f + 1
  else if f % 2 = 0 then f else f + 1

/-- Python `round(x, 2)`: round to two decimal places. -/
def round2 (x : ℚ) : ℚ := (roundHalfEven (x * 100) : ℚ) / 100

theorem roundHalfEven_nonneg (x : ℚ) (hx : 0 ≤ x) : 0 ≤ roundHalfEven x := by
  have hf : (0 : ℤ) ≤ ⌊x⌋ := Int.floor_nonneg.mpr hx
  unfold roundHalfEven
  dsimp only
  split
  · exact hf
  · split
    · omega
    · split
      · exact hf
      · omega

theorem roundHalfEven_le (x : ℚ) (n : ℤ) (hx : x ≤ n) : roundHalfEven x ≤ n := by
  have hf : ⌊x⌋ ≤ n := by
    have h := Int.floor_le_floor hx
    rwa [Int.floor_intCast] at h
  unfold roundHalfEven
  dsimp only
  split
  · exact hf
  · rename_i h1
    push_neg at h1
    have hlt : ⌊x⌋ < n := by
      by_contra hge
      have hfn : ⌊x⌋ = n := le_antisymm hf (by omega)
      have : x - ⌊x⌋ ≤ 0 := by
        rw [hfn]
        exact sub_nonpos.mpr hx
      linarith
    split
    · omega
    · split
      · exact hf
      · omega

theorem round2_nonneg (x : ℚ) (hx : 0 ≤ x) : 0 ≤ round2 x := by
  unfold round2
  have := roundHalfEven_nonneg (x * 100) (by positivity)
  positivity

theorem round2_le_one (x : ℚ) (hx : x ≤ 1) : round2 x ≤ 1 := by
  unfold round2
  have h : roundHalfEven (x * 100) ≤ (100 : ℤ) := by
    apply roundHalfEven_le
    push_cast
    linarith
  rw [div_le_one (by norm_num)]
  exact_mod_cast h

/-! ### Symbol Normalizer — `extract_and_format_symbol`
(`src/wom/new_pairs_tracker.py`, lines 20-31) -/

/-- The pool-type markers recognised in second position. -/
def poolMarkers : List String := ["DLMM", "CLMM", "CPMM"]

/-- Helper for `pyWords`: scan the character list, `acc` holding the
(reversed) current word. -/
def wordsAux : List Char → List Char → List String
  | [], acc => if acc.isEmpty then [] else [String.mk acc.reverse]
  | c :: cs, acc =>
    if c.isWhitespace then
      if acc.isEmpty then wordsAux cs [] else String.mk acc.reverse :: wordsAux cs []
    else wordsAux cs (c :: acc)

/-- Python `str.split()` with no argument: split on runs of whitespace,
dropping empty pieces. -/
def pyWords (s : String) : List String := wordsAux s.toList []

/-- Python `str.strip()`: remove leading and trailing whitespace. -/
def pyStrip (s : String) : String :=
  String.mk (((s.toList.dropWhile Char.isWhitespace).reverse.dropWhile
      Char.isWhitespace).reverse)

/-- Python `s[1:]`: drop the first character. -/
def pyTail (s : String) : String := String.mk (s.toList.drop 1)

/-- The body of `extract_and_format_symbol` after `parts = token_symbol_raw.split()`:
if `len(parts) > 1 and parts[1] in ["DLMM","CLMM","CPMM"]` the symbol is
`parts[2]`, else `parts[1]`; an `IndexError` is caught and yields `"$Unknown"`. -/
def formatParts : List String → String
  | _ :: p1 :: rest =>
    if p1 ∈ poolMarkers then
      match rest with
      | p2 :: _ => "$" ++ pyStrip p2
      | [] => "$Unknown"
    else "$" ++ pyStrip p1
  | _ => "$Unknown"

/-- `extract_and_format_symbol` from `src/wom/new_pairs_tracker.py`. -/
def extract_and_format_symbol (raw : String) : String :=
  formatParts (pyWords raw)

/-! ### Candidate Filter (`src/wom/new_pairs_tracker.py`, lines 43-47, 94-95) -/

def MIN_MAKERS : ℚ := 7000
def MAX_AGE : ℚ := 24

/-- The admission condition of `get_filtered_pairs`:
`age is not None and age <= MAX_AGE and maker_count >= MIN_MAKERS`. -/
def passes_filter (age : Option ℚ) (maker_count : ℚ) : Bool :=
  match age with
  | none => false
  | some a => decide (a ≤ MAX_AGE) && decide (MIN_MAKERS ≤ maker_count)

/-! ### Discovery batch processing (`get_filtered_pairs`, lines 82-111) -/

/-- One raw item of the discovery feed, after the `.get(...)` defaulting
performed at lines 83-92 (`age` is the only field left possibly `None`). -/
structure RawItem where
  tokenName : String
  tokenSymbol : String
  age : Option ℚ
  volumeUsd : ℚ
  makerCount : ℚ
  liquidityUsd : ℚ
  marketCapUsd : ℚ
  priceChange1h : ℚ
  address : String
deriving DecidableEq

/-- A surviving entry of `filtered_tokens` (the dict appended at lines 98-109). -/
structure FilteredToken where
  token_name : String
  token_symbol : String
  address : String
  age_hours : ℚ
  volume_usd : ℚ
  maker_count : ℚ
  liquidity_usd : ℚ
  market_cap_usd : ℚ
  priceChange1h : ℚ
deriving DecidableEq

/-- The dict appended to `filtered_tokens` for an admitted item (its `age`
is non-`None` whenever the filter admitted it; `getD 0` is never reached then). -/
def mkFiltered (it : RawItem) : FilteredToken :=
  { token_name := it.tokenName
    token_symbol := extract_and_format_symbol it.tokenSymbol
    address := it.address
    age_hours := it.age.getD 0
    volume_usd := it.volumeUsd
    maker_count := it.makerCount
    liquidity_usd := it.liquidityUsd
    market_cap_usd := it.marketCapUsd
    priceChange1h := it.priceChange1h }

/-- Whether the loop admits an item (the condition at lines 94-95). -/
def admitted (it : RawItem) : Bool := passes_filter it.age it.makerCount

/-- The `for item in items` loop of `get_filtered_pairs`: `seen` models the
`unique_symbols` set (membership is all that is used of it). -/
def filterLoopGo : List RawItem → List String → List FilteredToken
  | [], _ => []
  | item :: rest, seen =>
    let sym := extract_and_format_symbol item.tokenSymbol
    if admitted item then
      if sym ∈ seen then filterLoopGo rest seen
      else mkFiltered item :: filterLoopGo rest (sym :: seen)
    else filterLoopGo rest seen

/-- `get_filtered_pairs`, restricted to its pure processing of the fetched
items (the Apify submit/poll/fetch is the external feed). -/
def get_filtered_pairs (items : List RawItem) : List FilteredToken :=
  filterLoopGo items []

/-! ### Token Store (`init_db` in `src/wom/main.py` lines 49-65,
`store_tokens` in `src/wom/new_pairs_tracker.py` lines 114-149) -/

/-- One row of the `tokens` table. Columns are nullable (`Option`) except
the `token_symbol` primary key; `created_at` has `DEFAULT CURRENT_TIMESTAMP`
so it is always populated. -/
structure TokenRow where
  token_symbol : String
  token_name : Option String
  address : Option String
  age_hours : Option ℚ
  volume_usd : Option ℚ
  maker_count : Option ℚ
  liquidity_usd : Option ℚ
  market_cap_usd : Option ℚ
  dex_url : Option String
  priceChange1h : Option ℚ
  wom_score : Option ℚ
  tweet_count : Option ℚ
  created_at : ℚ
deriving DecidableEq

abbrev Store := List TokenRow

/-- The dex URL derived at line 121 of `store_tokens`. -/
def dex_url_of (address : String) : String :=
  "https://dexscreener.com/solana/" ++ address

/-- The row inserted by `store_tokens` for one token dict: the ten listed
columns are bound to the dict's values, and the omitted columns take their
defaults — `wom_score`/`tweet_count` become `NULL` and `created_at` becomes
`CURRENT_TIMESTAMP` (`now`). -/
def mkRow (now : ℚ) (t : FilteredToken) : TokenRow :=
  { token_symbol := t.token_symbol
    token_name := some t.token_name
    address := some t.address
    age_hours := some t.age_hours
    volume_usd := some t.volume_usd
    maker_count := some t.maker_count
    liquidity_usd := some t.liquidity_usd
    market_cap_usd := some t.market_cap_usd
    dex_url := some (dex_url_of t.address)
    priceChange1h := some t.priceChange1h
    wom_score := none
    tweet_count := none
    created_at := now }

/-- SQLite `INSERT OR REPLACE` on the `token_symbol` primary key: any
conflicting row is deleted, then the fresh row is inserted. -/
def insertOrReplace (now : ℚ) (t : FilteredToken) (s : Store) : Store :=
  s.filter (fun r => !(r.token_symbol == t.token_symbol)) ++ [mkRow now t]

/-- `store_tokens`: one `INSERT OR REPLACE` per token dict. -/
def store_tokens (now : ℚ) (tokens : List FilteredToken) (s : Store) : Store :=
  tokens.foldl (fun acc t => insertOrReplace now t acc) s

/-- `SELECT ... WHERE token_symbol = sym` on the primary key. -/
def lookupToken (s : Store) (sym : String) : Option TokenRow :=
  s.find? (fun r => r.token_symbol == sym)

/-! ### Eviction -/

/-- `delete_old_tokens` from `src/wom/main.py` (lines 70-80):
`DELETE FROM tokens WHERE created_at <= now - 24h`. -/
def delete_old_tokens_wom (now : ℚ) (s : Store) : Store :=
  s.filter (fun r => !(decide (r.created_at ≤ now - 24)))

/-- `delete_old_tokens` from `src/crypto_lens/main.py` (lines 71-82): the
cutoff computation calls `datetime.utc()`, which does not exist, so the
function raises `AttributeError` before reaching the `DELETE` statement. -/
def delete_old_tokens_cl (s : Store) : Except String Store :=
  Except.error "AttributeError: type object datetime has no attribute utc"

/-- The `DELETE FROM tokens WHERE age_hours >= 24` statement of
`src/crypto_lens/main.py` line 79 (unreachable behind the `AttributeError`);
a `NULL` `age_hours` never satisfies the SQL comparison. -/
def delete_old_tokens_cl_query (s : Store) : Store :=
  s.filter (fun r =>
    !(match r.age_hours with
      | some a => decide ((24 : ℚ) ≤ a)
      | none => false))

/-! ### Sentiment Scorer (`calculate_bullishness`,
`src/crypto_lens/twitter_analysis.py` lines 25-35) -/

/-- `calculate_bullishness` applied to the classifier's three-class
distribution `(p0, p1, p2)` = (bullish, neutral, bearish):
`bullish_prob = round(probs[0] * 100, 2)`, `bearish_prob = round(probs[2] * 100, 2)`,
result `round(bullish_prob / (bullish_prob + bearish_prob), 2)`. -/
def calculate_bullishness (p0 p1 p2 : ℚ) : ℚ :=
  let bullish_prob := round2 (p0 * 100)
  let bearish_prob := round2 (p2 * 100)
  round2 (bullish_prob / (bullish_prob + bearish_prob))

/-! ### Score Aggregator (`analyze_cashtags`,
`src/crypto_lens/twitter_analysis.py` lines 73-77) -/

/-- Lines 73-77: `round(sum(scores)/len(scores), 2)` when the list is
non-empty, `None` ("no signal") otherwise. -/
def aggregate_scores (scores : List ℚ) : Option ℚ :=
  match scores with
  | [] => none
  | _ => some (round2 (scores.sum / scores.length))

/-! ### Search-term truncation (the two code paths of claim C10) -/

/-- `src/crypto_lens/twitter_analysis.py` line 43:
`search_term = cashtag[1:] if len(cashtag) > 6 else cashtag`. -/
def search_term_analysis (cashtag : String) : String :=
  if cashtag.length > 6 then pyTail cashtag else cashtag

/-- `src/crypto_lens/twitter_sentiment.py` line 35:
`search_term = cashtag[1:] if len(cashtag) > 7 else cashtag`. -/
def search_term_sentiment (cashtag : String) : String :=
  if cashtag.length > 7 then pyTail cashtag else cashtag

/-! ### Per-cashtag scoring loop (`analyze_cashtags`,
`src/crypto_lens/twitter_analysis.py` lines 38-82)

The Apify actor call, the tweet pre-processing, the relevance check and the
FinBERT scorer are external collaborators (`utils.py` and the network are
outside the pipeline); they are passed in as explicit functions, with the
actor call (`fetch`) as the fallible operation guarded by the
`try/except` of lines 52-80. -/

/-- One raw tweet as consumed by the loop: `item.get("text", "")` and
`item.get("userFollowersCount", 0)`. -/
structure Tweet where
  text : String
  userFollowersCount : ℚ

/-- The per-cashtag outcome recorded in `data`: a numeric average,
`None` (no qualifying tweets), or the string `"Error"`. -/
inductive Bullishness
  | score (q : ℚ)
  | noSignal
  | err
deriving DecidableEq

/-- One entry of the `data` list: `{"Cashtag": ..., "Bullishness": ...}`. -/
structure CashtagResult where
  cashtag : String
  bullishness : Bullishness
deriving DecidableEq

/-- The inner tweet loop (lines 56-71): strip, preprocess, drop irrelevant
tweets, drop authors under 150 followers, score the rest. -/
def tweetScores (preprocess : String → String) (is_relevant : String → Bool)
    (score : String → ℚ) (items : List Tweet) : List ℚ :=
  items.filterMap (fun item =>
    let tweet_text := preprocess (pyStrip item.text)
    if !(is_relevant tweet_text) then none
    else if item.userFollowersCount < 150 then none
    else some (score tweet_text))

/-- The body of the `for cashtag in cashtags` loop (lines 42-80): one
`try/except` per cashtag; a failed actor run yields the `"Error"` entry. -/
def processOne (fetch : String → Except Unit (List Tweet))
    (preprocess : String → String) (is_relevant : String → Bool)
    (score : String → ℚ) (cashtag : String) : CashtagResult :=
  match fetch (search_term_analysis cashtag) with
  | Except.error _ => { cashtag := cashtag, bullishness := Bullishness.err }
  | Except.ok items =>
    match aggregate_scores (tweetScores preprocess is_relevant score items) with
    | some avg => { cashtag := cashtag, bullishness := Bullishness.score avg }
    | none => { cashtag := cashtag, bullishness := Bullishness.noSignal }

/-- `analyze_cashtags`: `data = []` then one append per cashtag. -/
def analyze_cashtags (fetch : String → Except Unit (List Tweet))
    (preprocess : String → String) (is_relevant : String → Bool)
    (score : String → ℚ) (cashtags : List String) : List CashtagResult :=
  cashtags.foldl
    (fun data c => data ++ [processOne fetch preprocess is_relevant score c]) []

/-- Number of per-cashtag failures (`"Error"` entries) in a result list. -/
def countFailures (rs : List CashtagResult) : ℕ :=
  rs.countP (fun r => r.bullishness == Bullishness.err)

/-- Number of per-cashtag non-failures (scored or no-signal entries). -/
def countSuccesses (rs : List CashtagResult) : ℕ :=
  rs.countP (fun r => !(r.bullishness == Bullishness.err))

/-! ## Theorems -/

/-- `len(s[1:]) = len(s) - 1`. -/
theorem length_pyTail (s : String) : (pyTail s).length = s.length - 1 := by
  show (s.data.drop 1).length = s.data.length - 1
  exact List.length_drop 1 s.data

/-- C5: the Candidate Filter admits a candidate iff its age is present and
at most the 24-hour max-age threshold and its maker count is at least the
7000 min-maker-count threshold; a null age is rejected regardless of the
maker count. -/
theorem candidate_filter_iff :
    (∀ (age : Option ℚ) (maker_count : ℚ),
        passes_filter age maker_count = true ↔
          ∃ a, age = some a ∧ a ≤ MAX_AGE ∧ MIN_MAKERS ≤ maker_count) ∧
    (∀ maker_count : ℚ, passes_filter none maker_count = false) := by
  constructor
  · intro age maker_count
    cases age with
    | none => simp [passes_filter]
    | some a => simp [passes_filter, and_assoc]
  · intro maker_count
    rfl

/-- C4: the Score Aggregator yields `None` ("no signal") on an empty input,
never a numeric default; on a non-empty input it yields the arithmetic mean
rounded to two decimal places; on `[0.8, 0.6, 0.4]` it yields `0.60`. -/
theorem aggregate_scores_spec :
    aggregate_scores [] = none ∧
    aggregate_scores [0.8, 0.6, 0.4] = some 0.60 ∧
    ∀ (x : ℚ) (xs : List ℚ),
      aggregate_scores (x :: xs) =
        some (round2 ((x :: xs).sum / ((x :: xs).length : ℚ))) := by
  refine ⟨rfl, ?_, fun x xs => rfl⟩
  show some (round2 (((0.8 : ℚ) + (0.6 + (0.4 + 0))) / 3)) = some 0.60
  norm_num [round2, roundHalfEven]

/-- C6: the Symbol Normalizer maps `"Foo DLMM BAR"` and `"Foo BAR"` to
`"$BAR"`, and any label splitting into at most one whitespace-separated
token to the sentinel `"$Unknown"` (no exception escapes). -/
theorem symbol_normalizer_cases :
    extract_and_format_symbol "Foo DLMM BAR" = "$BAR" ∧
    extract_and_format_symbol "Foo BAR" = "$BAR" ∧
    ∀ raw : String, (pyWords raw).length ≤ 1 →
      extract_and_format_symbol raw = "$Unknown" := by
  refine ⟨by decide, by decide, ?_⟩
  intro raw h
  unfold extract_and_format_symbol
  rcases hw : pyWords raw with _ | ⟨a, _ | ⟨b, l⟩⟩
  · rfl
  · rfl
  · rw [hw] at h
    simp at h

/-- Witness for the universally quantified part of `symbol_normalizer_cases`
at the single-token label `"Solo"`. -/
theorem symbol_normalizer_cases_witness :
    (pyWords "Solo").length ≤ 1 ∧ extract_and_format_symbol "Solo" = "$Unknown" :=
  ⟨by decide, symbol_normalizer_cases.2.2 "Solo" (by decide)⟩

/-- C10: the two search-term code paths truncate at different thresholds
(6 vs 7), so they disagree exactly on cashtags of length 7, e.g. `"$ABCDEF"`. -/
theorem search_term_threshold_mismatch :
    search_term_analysis "$ABCDEF" = "ABCDEF" ∧
    search_term_sentiment "$ABCDEF" = "$ABCDEF" ∧
    search_term_analysis "$ABCDEF" ≠ search_term_sentiment "$ABCDEF" ∧
    ∀ c : String, search_term_analysis c ≠ search_term_sentiment c ↔ c.length = 7 := by
  refine ⟨by decide, by decide, by decide, ?_⟩
  intro c
  unfold search_term_analysis search_term_sentiment
  constructor
  · intro hne
    by_contra hlen
    rcases Nat.lt_or_ge c.length 7 with h | h
    · rw [if_neg (by omega), if_neg (by omega)] at hne
      exact hne rfl
    · rw [if_pos (by omega), if_pos (by omega)] at hne
      exact hne rfl
  · intro h7
    rw [if_pos (by omega), if_neg (by omega)]
    intro heq
    have hlen := congrArg String.length heq
    rw [length_pyTail, h7] at hlen
    omega

/-- C7 counterexample: at the valid classifier distribution
(bullish, neutral, bearish) = (0.1, 0.7, 0.2) the scorer returns `0.33`,
which is not `bullish_prob / (bullish_prob + bearish_prob) = 1/3`:
the result is rounded to two decimals. -/
theorem bullishness_rounding_counterexample :
    (0 : ℚ) ≤ 0.1 ∧ (0 : ℚ) ≤ 0.7 ∧ (0 : ℚ) ≤ 0.2 ∧
    (0.1 : ℚ) + 0.7 + 0.2 = 1 ∧
    calculate_bullishness 0.1 0.7 0.2 = 33/100 ∧
    (0.1 : ℚ) / (0.1 + 0.2) = 1/3 ∧
    (33/100 : ℚ) ≠ 1/3 := by
  refine ⟨by norm_num, by norm_num, by norm_num, by norm_num, ?_, by norm_num, by norm_num⟩
  show round2 (round2 ((0.1 : ℚ) * 100) / (round2 ((0.1 : ℚ) * 100) + round2 ((0.2 : ℚ) * 100))) = 33/100
  norm_num [round2, roundHalfEven]

/-- C7 (amended): the Sentiment Scorer returns the two-decimal rounding of
`bullish_prob / (bullish_prob + bearish_prob)`, where `bullish_prob` and
`bearish_prob` are the classifier's bullish and bearish probabilities scaled
by 100 and rounded to two decimals; whenever that denominator is nonzero the
returned value lies in [0, 1], with the neutral mass excluded. -/
theorem bullishness_amended_bounds (p0 p1 p2 : ℚ) (h0 : 0 ≤ p0) (h2 : 0 ≤ p2)
    (hd : round2 (p0 * 100) + round2 (p2 * 100) ≠ 0) :
    calculate_bullishness p0 p1 p2 =
      round2 (round2 (p0 * 100) / (round2 (p0 * 100) + round2 (p2 * 100))) ∧
    0 ≤ calculate_bullishness p0 p1 p2 ∧ calculate_bullishness p0 p1 p2 ≤ 1 := by
  have hb : 0 ≤ round2 (p0 * 100) := round2_nonneg _ (by positivity)
  have hr : 0 ≤ round2 (p2 * 100) := round2_nonneg _ (by positivity)
  have hdpos : 0 < round2 (p0 * 100) + round2 (p2 * 100) :=
    lt_of_le_of_ne (by linarith) (Ne.symm hd)
  have hratio0 : 0 ≤ round2 (p0 * 100) / (round2 (p0 * 100) + round2 (p2 * 100)) :=
    div_nonneg hb hdpos.le
  have hratio1 : round2 (p0 * 100) / (round2 (p0 * 100) + round2 (p2 * 100)) ≤ 1 := by
    rw [div_le_one hdpos]
    linarith
  have hcb : calculate_bullishness p0 p1 p2 =
      round2 (round2 (p0 * 100) / (round2 (p0 * 100) + round2 (p2 * 100))) := rfl
  refine ⟨hcb, ?_, ?_⟩
  · rw [hcb]
    exact round2_nonneg _ hratio0
  · rw [hcb]
    exact round2_le_one _ hratio1

/-- Witness for `bullishness_amended_bounds` at the distribution
(0.3, 0.5, 0.2). -/
theorem bullishness_amended_bounds_witness :
    calculate_bullishness 0.3 0.5 0.2 =
      round2 (round2 ((0.3 : ℚ) * 100) / (round2 ((0.3 : ℚ) * 100) + round2 ((0.2 : ℚ) * 100))) ∧
    0 ≤ calculate_bullishness 0.3 0.5 0.2 ∧ calculate_bullishness 0.3 0.5 0.2 ≤ 1 :=
  bullishness_amended_bounds 0.3 0.5 0.2 (by norm_num) (by norm_num)
    (by norm_num [round2, roundHalfEven])

/-! ### Sample data for the store claims -/

/-- A re-discovered `$XYZ` candidate (the later upsert of the end-to-end
scenario in the spec, maker_count 9500). -/
def xyzTok : FilteredToken :=
  { token_name := "Xyz"
    token_symbol := "$XYZ"
    address := "A1"
    age_hours := 5
    volume_usd := 1000
    maker_count := 9500
    liquidity_usd := 60000
    market_cap_usd := 250000
    priceChange1h := 2 }

/-- A stored `$XYZ` row created at time 0 that has already been scored
(`wom_score` 1, `tweet_count` 2). -/
def xyzOldRow : TokenRow :=
  { token_symbol := "$XYZ"
    token_name := some "Xyz"
    address := some "A0"
    age_hours := some 10
    volume_usd := some 500
    maker_count := some 8000
    liquidity_usd := some 50000
    market_cap_usd := some 200000
    dex_url := some (dex_url_of "A0")
    priceChange1h := some 1
    wom_score := some 1
    tweet_count := some 2
    created_at := 0 }

/-- After an `INSERT OR REPLACE` for symbol `t.token_symbol`, looking that
symbol up yields exactly the freshly inserted row. -/
theorem lookup_insertOrReplace (now : ℚ) (t : FilteredToken) (s : Store) :
    lookupToken (insertOrReplace now t s) t.token_symbol = some (mkRow now t) := by
  unfold lookupToken insertOrReplace
  rw [List.find?_append]
  have h1 : (s.filter (fun r => !(r.token_symbol == t.token_symbol))).find?
      (fun r => r.token_symbol == t.token_symbol) = none := by
    rw [List.find?_eq_none]
    intro x hx
    simp only [List.mem_filter, Bool.not_eq_eq_eq_not, Bool.not_true] at hx
    simp [hx.2]
  rw [h1]
  simp [mkRow, List.find?]

/-- C1 counterexample: the store holds `$XYZ` created at time 0 with a
score; upserting `$XYZ` again at time 5 leaves a row whose creation
timestamp is 5, not the original 0 — `INSERT OR REPLACE` re-applies the
`DEFAULT CURRENT_TIMESTAMP`, so the creation timestamp does not survive. -/
theorem upsert_created_at_counterexample :
    lookupToken [xyzOldRow] "$XYZ" = some xyzOldRow ∧
    xyzOldRow.created_at = 0 ∧
    (lookupToken (store_tokens 5 [xyzTok] [xyzOldRow]) "$XYZ").map
      TokenRow.created_at = some 5 ∧
    (5 : ℚ) ≠ 0 := by
  refine ⟨rfl, rfl, rfl, by norm_num⟩

/-- C1 (amended): a later upsert of an already-tracked symbol replaces all
tracked fields with the new candidate's values, and additionally resets the
creation timestamp to the time of the upsert and `wom_score`/`tweet_count`
to null: the stored row is exactly the fresh row built from the candidate. -/
theorem upsert_replaces_all_fields_amended (s : Store) (t : FilteredToken)
    (now : ℚ) (old : TokenRow)
    (hold : lookupToken s t.token_symbol = some old) :
    lookupToken (store_tokens now [t] s) t.token_symbol = some (mkRow now t) ∧
    (mkRow now t).created_at = now ∧
    (mkRow now t).wom_score = none ∧ (mkRow now t).tweet_count = none :=
  ⟨lookup_insertOrReplace now t s, rfl, rfl, rfl⟩

/-- Witness for `upsert_replaces_all_fields_amended` at the `$XYZ` sample. -/
theorem upsert_replaces_all_fields_amended_witness :
    lookupToken (store_tokens 5 [xyzTok] [xyzOldRow]) xyzTok.token_symbol =
      some (mkRow 5 xyzTok) ∧
    (mkRow 5 xyzTok).created_at = 5 ∧
    (mkRow 5 xyzTok).wom_score = none ∧ (mkRow 5 xyzTok).tweet_count = none :=
  upsert_replaces_all_fields_amended [xyzOldRow] xyzTok 5 xyzOldRow rfl

/-- C9: if a tracked token has a non-null `wom_score` and `tweet_count`, a
later upsert of its symbol leaves a row whose `wom_score` and `tweet_count`
are null: the replace-style insert omits those columns, so re-discovery
erases the sentiment signal. -/
theorem upsert_resets_sentiment (s : Store) (t : FilteredToken) (now : ℚ)
    (old : TokenRow) (w c : ℚ)
    (hold : lookupToken s t.token_symbol = some old)
    (hw : old.wom_score = some w) (hc : old.tweet_count = some c) :
    (lookupToken (store_tokens now [t] s) t.token_symbol).map
      TokenRow.wom_score = some none ∧
    (lookupToken (store_tokens now [t] s) t.token_symbol).map
      TokenRow.tweet_count = some none := by
  have h : lookupToken (store_tokens now [t] s) t.token_symbol =
      some (mkRow now t) := lookup_insertOrReplace now t s
  rw [h]
  exact ⟨rfl, rfl⟩

/-- Witness for `upsert_resets_sentiment` at the `$XYZ` sample. -/
theorem upsert_resets_sentiment_witness :
    (lookupToken (store_tokens 5 [xyzTok] [xyzOldRow]) xyzTok.token_symbol).map
      TokenRow.wom_score = some none ∧
    (lookupToken (store_tokens 5 [xyzTok] [xyzOldRow]) xyzTok.token_symbol).map
      TokenRow.tweet_count = some none :=
  upsert_resets_sentiment [xyzOldRow] xyzTok 5 xyzOldRow 1 2 rfl rfl rfl

/-! ### Eviction claims -/

/-- A row created at time 75 (older than the 24-hour window at `now = 100`)
whose `age_hours` is `NULL`. -/
def staleRow : TokenRow :=
  { token_symbol := "$OLD"
    token_name := some "Old"
    address := some "A2"
    age_hours := none
    volume_usd := some 100
    maker_count := some 8000
    liquidity_usd := some 50000
    market_cap_usd := some 200000
    dex_url := some (dex_url_of "A2")
    priceChange1h := some 0
    wom_score := none
    tweet_count := none
    created_at := 75 }

/-- A row created at time 100 (inside the window at `now = 100`) whose
stale `age_hours` field reads 30. -/
def freshAgedRow : TokenRow :=
  { token_symbol := "$NEWER"
    token_name := some "Newer"
    address := some "A3"
    age_hours := some 30
    volume_usd := some 100
    maker_count := some 8000
    liquidity_usd := some 50000
    market_cap_usd := some 200000
    dex_url := some (dex_url_of "A3")
    priceChange1h := some 0
    wom_score := none
    tweet_count := none
    created_at := 100 }

/-- C3: the wom-variant eviction keeps exactly the rows whose creation
timestamp is after `now - 24` (so a null-age row with a recent timestamp
survives), while the crypto_lens variant raises `AttributeError` — deleting
nothing, even rows the claim requires deleted — and its unreachable `DELETE`
statement keys on the stale `age_hours` field, which would delete a
recently-created row. -/
theorem evict_expired_exact_and_cl_divergence :
    (∀ (now : ℚ) (s : Store) (r : TokenRow),
        r ∈ delete_old_tokens_wom now s ↔ r ∈ s ∧ ¬ r.created_at ≤ now - 24) ∧
    delete_old_tokens_wom 100 [staleRow, freshAgedRow] = [freshAgedRow] ∧
    staleRow.created_at ≤ (100 : ℚ) - 24 ∧
    delete_old_tokens_cl [staleRow] =
      Except.error "AttributeError: type object datetime has no attribute utc" ∧
    delete_old_tokens_cl_query [freshAgedRow] = [] ∧
    ¬ freshAgedRow.created_at ≤ (100 : ℚ) - 24 := by
  refine ⟨?_, ?_, by norm_num [staleRow], rfl, rfl, by norm_num [freshAgedRow]⟩
  · intro now s r
    simp [delete_old_tokens_wom, List.mem_filter]
  · show List.filter _ _ = _
    rw [List.filter_cons_of_neg (by norm_num [staleRow]),
      List.filter_cons_of_pos (by norm_num [freshAgedRow])]
    rfl

/-! ### Per-token scoring isolation -/

theorem foldl_append_eq_map {α β : Type} (f : α → β) (l : List α) (acc : List β) :
    l.foldl (fun data c => data ++ [f c]) acc = acc ++ l.map f := by
  induction l generalizing acc with
  | nil => simp
  | cons a l ih => simp [ih]

theorem counts_complement (rs : List CashtagResult) :
    countSuccesses rs + countFailures rs = rs.length := by
  induction rs with
  | nil => rfl
  | cons r rs ih =>
    simp only [countSuccesses, countFailures, List.countP_cons, List.length_cons] at ih ⊢
    by_cases h : r.bullishness = Bullishness.err <;> simp [h] <;> omega

/-- C8: the per-cashtag scoring loop yields exactly one result per input
cashtag, in order, each produced independently of the other cashtags (the
output is a pointwise map); a failed actor run for one cashtag yields that
cashtag's `"Error"` entry and aborts nothing else, and the success and
failure counts sum to the number of processed tokens. -/
theorem scoring_isolated_per_token (fetch : String → Except Unit (List Tweet))
    (pp : String → String) (rel : String → Bool) (sc : String → ℚ)
    (cashtags : List String) :
    analyze_cashtags fetch pp rel sc cashtags =
      cashtags.map (processOne fetch pp rel sc) ∧
    (analyze_cashtags fetch pp rel sc cashtags).length = cashtags.length ∧
    (∀ c, (processOne fetch pp rel sc c).cashtag = c) ∧
    (∀ c, fetch (search_term_analysis c) = Except.error () →
      processOne fetch pp rel sc c = { cashtag := c, bullishness := Bullishness.err }) ∧
    countSuccesses (analyze_cashtags fetch pp rel sc cashtags) +
      countFailures (analyze_cashtags fetch pp rel sc cashtags) = cashtags.length := by
  have hmap : analyze_cashtags fetch pp rel sc cashtags =
      cashtags.map (processOne fetch pp rel sc) := by
    unfold analyze_cashtags
    simpa using foldl_append_eq_map (processOne fetch pp rel sc) cashtags []
  refine ⟨hmap, by rw [hmap, List.length_map], ?_, ?_, ?_⟩
  · intro c
    unfold processOne
    split
    · rfl
    · split <;> rfl
  · intro c hc
    unfold processOne
    rw [hc]
  · rw [counts_complement, hmap, List.length_map]

/-- Witness for `scoring_isolated_per_token`'s failure-case conjunct: two
cashtags, the first failing, the second scored — the failing one yields the
`"Error"` entry while the other is still scored. -/
theorem scoring_isolated_per_token_witness :
    (fun t : String => if t = "AAAAAA" then (Except.error () : Except Unit (List Tweet))
        else Except.ok [])
      (search_term_analysis "$AAAAAA") = Except.error () ∧
    processOne
      (fun t : String => if t = "AAAAAA" then Except.error () else Except.ok [])
      id (fun _ => true) (fun _ => 1) "$AAAAAA" =
        { cashtag := "$AAAAAA", bullishness := Bullishness.err } ∧
    processOne
      (fun t : String => if t = "AAAAAA" then Except.error () else Except.ok [])
      id (fun _ => true) (fun _ => 1) "$BBB" =
        { cashtag := "$BBB", bullishness := Bullishness.noSignal } :=
  ⟨rfl,
   (scoring_isolated_per_token
      (fun t : String => if t = "AAAAAA" then Except.error () else Except.ok [])
      id (fun _ => true) (fun _ => 1) ["$AAAAAA", "$BBB"]).2.2.2.1
      "$AAAAAA" rfl,
   rfl⟩

/-! ### Deduplicator claims -/

/-- Invariant of the discovery loop: the output symbols are distinct and
avoid every symbol already in `unique_symbols`. -/
theorem filterLoopGo_nodup (items : List RawItem) (seen : List String) :
    ((filterLoopGo items seen).map (fun e => e.token_symbol)).Nodup ∧
    ∀ e ∈ filterLoopGo items seen, e.token_symbol ∉ seen := by
  induction items generalizing seen with
  | nil => simp [filterLoopGo]
  | cons item rest ih =>
    unfold filterLoopGo
    dsimp only
    by_cases ha : admitted item
    · rw [if_pos ha]
      by_cases hs : extract_and_format_symbol item.tokenSymbol ∈ seen
      · rw [if_pos hs]
        exact ih seen
      · rw [if_neg hs]
        obtain ⟨ihn, ihf⟩ := ih (extract_and_format_symbol item.tokenSymbol :: seen)
        refine ⟨?_, ?_⟩
        · simp only [List.map_cons, List.nodup_cons]
          refine ⟨?_, ihn⟩
          intro hmem
          obtain ⟨e, he, heq⟩ := List.mem_map.mp hmem
          apply ihf e he
          rw [heq]
          exact List.mem_cons_self _ _
        · intro e he
          rcases List.mem_cons.mp he with rfl | hmem
          · exact hs
          · intro hin
            exact ihf e hmem (List.mem_cons_of_mem _ hin)
    · rw [if_neg ha]
      exact ih seen

/-- The loop's survivors are an in-order selection of the input batch. -/
theorem filterLoopGo_sublist (items : List RawItem) (seen : List String) :
    ∃ sub : List RawItem, sub.Sublist items ∧
      filterLoopGo items seen = sub.map mkFiltered := by
  induction items generalizing seen with
  | nil => exact ⟨[], List.Sublist.slnil, rfl⟩
  | cons item rest ih =>
    by_cases ha : admitted item
    · by_cases hs : extract_and_format_symbol item.tokenSymbol ∈ seen
      · obtain ⟨sub, hsub, heq⟩ := ih seen
        refine ⟨sub, hsub.cons item, ?_⟩
        unfold filterLoopGo
        dsimp only
        rw [if_pos ha, if_pos hs, heq]
      · obtain ⟨sub, hsub, heq⟩ := ih (extract_and_format_symbol item.tokenSymbol :: seen)
        refine ⟨item :: sub, hsub.cons₂ item, ?_⟩
        unfold filterLoopGo
        dsimp only
        rw [if_pos ha, if_neg hs, heq]
        rfl
    · obtain ⟨sub, hsub, heq⟩ := ih seen
      refine ⟨sub, hsub.cons item, ?_⟩
      unfold filterLoopGo
      dsimp only
      rw [if_neg ha, heq]

theorem find?_cons_pos {α : Type} (p : α → Bool) (a : α) (l : List α)
    (h : p a = true) : (a :: l).find? p = some a :=
  List.find?_cons_of_pos l h

theorem find?_cons_neg {α : Type} (p : α → Bool) (a : α) (l : List α)
    (h : ¬ p a = true) : (a :: l).find? p = l.find? p :=
  List.find?_cons_of_neg l h

/-- First-seen-wins, relative to the already-seen set: looking up any not-yet
seen symbol in the loop's output finds the entry built from the *first*
admitted item carrying that symbol; symbols already seen find nothing. -/
theorem filterLoopGo_find? (items : List RawItem) (seen : List String) (s : String) :
    (s ∈ seen → (filterLoopGo items seen).find? (fun e => e.token_symbol == s) = none) ∧
    (s ∉ seen →
      (filterLoopGo items seen).find? (fun e => e.token_symbol == s) =
        ((items.filter admitted).find?
          (fun it => extract_and_format_symbol it.tokenSymbol == s)).map mkFiltered) := by
  induction items generalizing seen with
  | nil => simp [filterLoopGo]
  | cons item rest ih =>
    unfold filterLoopGo
    dsimp only
    by_cases ha : admitted item
    · rw [if_pos ha, List.filter_cons_of_pos ha]
      by_cases hs : extract_and_format_symbol item.tokenSymbol ∈ seen
      · rw [if_pos hs]
        refine ⟨fun hmem => (ih seen).1 hmem, fun hnot => ?_⟩
        have hne : ¬ ((fun it => extract_and_format_symbol it.tokenSymbol == s) item = true) := by
          simp only [beq_iff_eq]
          intro h
          rw [h] at hs
          exact hnot hs
        rw [find?_cons_neg (fun it => extract_and_format_symbol it.tokenSymbol == s)
          item _ hne]
        exact (ih seen).2 hnot
      · rw [if_neg hs]
        refine ⟨fun hmem => ?_, fun hnot => ?_⟩
        · have hne : ¬ ((fun e => e.token_symbol == s) (mkFiltered item) = true) := by
            simp only [beq_iff_eq]
            intro h
            apply hs
            show extract_and_format_symbol item.tokenSymbol ∈ seen
            have hsym : extract_and_format_symbol item.tokenSymbol = s := h
            rw [hsym]
            exact hmem
          rw [find?_cons_neg (fun e => e.token_symbol == s) (mkFiltered item) _ hne]
          exact (ih (extract_and_format_symbol item.tokenSymbol :: seen)).1
            (List.mem_cons_of_mem _ hmem)
        · by_cases heq : s = extract_and_format_symbol item.tokenSymbol
          · rw [find?_cons_pos (fun e => e.token_symbol == s) (mkFiltered item) _
                (show ((mkFiltered item).token_symbol == s) = true by
                  rw [heq]; exact beq_self_eq_true _),
              find?_cons_pos (fun it => extract_and_format_symbol it.tokenSymbol == s)
                item _
                (show (extract_and_format_symbol item.tokenSymbol == s) = true by
                  rw [heq]; exact beq_self_eq_true _)]
            rfl
          · have hne1 : ¬ ((fun e => e.token_symbol == s) (mkFiltered item) = true) := by
              simp only [beq_iff_eq]
              intro h
              exact heq (by rw [← h]; rfl)
            have hne2 : ¬ ((fun it =>
                extract_and_format_symbol it.tokenSymbol == s) item = true) := by
              simp only [beq_iff_eq]
              intro h
              exact heq h.symm
            rw [find?_cons_neg (fun e => e.token_symbol == s) (mkFiltered item) _ hne1,
              find?_cons_neg (fun it => extract_and_format_symbol it.tokenSymbol == s)
                item _ hne2]
            refine (ih (extract_and_format_symbol item.tokenSymbol :: seen)).2 ?_
            intro hmem
            rcases List.mem_cons.mp hmem with h | h
            · exact heq h
            · exact hnot h
    · rw [if_neg ha, List.filter_cons_of_neg ha]
      exact ih seen

/-- C2: the deduplicated discovery output has pairwise-distinct canonical
symbols; it is an in-order selection of the input batch (relative order
preserved); and for every symbol, the surviving entry is the one built from
the first admitted candidate with that symbol — later same-symbol
candidates are dropped silently. -/
theorem dedup_unique_first_seen_order (items : List RawItem) :
    ((get_filtered_pairs items).map (fun e => e.token_symbol)).Nodup ∧
    (∃ sub : List RawItem, sub.Sublist items ∧
        get_filtered_pairs items = sub.map mkFiltered) ∧
    ∀ s : String,
      (get_filtered_pairs items).find? (fun e => e.token_symbol == s) =
        ((items.filter admitted).find?
          (fun it => extract_and_format_symbol it.tokenSymbol == s)).map mkFiltered :=
  ⟨(filterLoopGo_nodup items []).1, filterLoopGo_sublist items [],
   fun s => (filterLoopGo_find? items [] s).2 (List.not_mem_nil s)⟩

end CryptoLens
